import Mathlib

/-!
Verification of the summurfy Gmail extension content script
(src/extension/content.js) against its natural-language specification.

The script is shallowly embedded: DOM query results are modelled as an
explicit `Dom` record (what each CSS selector currently resolves to),
strings are Lean strings, and the event handlers become pure functions
from widget state (and the DOM snapshot) to a new state plus a list of
observable actions.
-/

namespace Summurfy

/-! ### Character classes used by the normalization regexes

The script cleans each extracted field with JavaScript string replaces:
control characters `[\u0000-\u001F\u007F-\u009F]`, zero-width marks
`[​-‍﻿]`, the non-breaking space ` `, and (for the
body only) whitespace runs `\s+`.  `trim()` removes JavaScript
WhiteSpace and LineTerminator characters from both ends. -/

/-- Matches the regex `[\u0000-\u001F\u007F-\u009F]` (C0 and C1 control
characters, content.js lines 27, 48, 72). -/
def isControlChar (c : Char) : Bool :=
  c.toNat ≤ 0x1F || (0x7F ≤ c.toNat && c.toNat ≤ 0x9F)

/-- Matches the regex `[​-‍﻿]` (zero-width and BOM
characters, content.js lines 28, 49, 73). -/
def isZeroWidth (c : Char) : Bool :=
  (0x200B ≤ c.toNat && c.toNat ≤ 0x200D) || c.toNat = 0xFEFF

/-- The ` ` replacement: non-breaking space becomes a plain space
(content.js lines 29, 50, 74). -/
def replaceNbsp (c : Char) : Char :=
  if c.toNat = 0x00A0 then ' ' else c

/-- JavaScript whitespace: the character class matched by `\s` and
removed at the ends by `String.prototype.trim` (WhiteSpace plus
LineTerminator code points). -/
def isJsWhitespace (c : Char) : Bool :=
  c.toNat = 0x09 || c.toNat = 0x0A || c.toNat = 0x0B || c.toNat = 0x0C ||
  c.toNat = 0x0D || c.toNat = 0x20 || c.toNat = 0xA0 || c.toNat = 0x1680 ||
  (0x2000 ≤ c.toNat && c.toNat ≤ 0x200A) || c.toNat = 0x2028 ||
  c.toNat = 0x2029 || c.toNat = 0x202F || c.toNat = 0x205F ||
  c.toNat = 0x3000 || c.toNat = 0xFEFF

/-- One pass of `.replace(/\s+/g, ' ')`: every maximal run of
whitespace collapses to a single plain space.  The boolean flag records
whether the previous character belonged to a whitespace run. -/
def collapseWsAux : Bool → List Char → List Char
  | _, [] => []
  | prevWs, c :: rest =>
    if isJsWhitespace c then
      if prevWs then collapseWsAux true rest
      else ' ' :: collapseWsAux true rest
    else c :: collapseWsAux false rest

/-- `.replace(/\s+/g, ' ')` on a character list. -/
def collapseWs (l : List Char) : List Char := collapseWsAux false l

/-- `String.prototype.trim` on a character list. -/
def jsTrim (l : List Char) : List Char :=
  ((l.dropWhile isJsWhitespace).reverse.dropWhile isJsWhitespace).reverse

/-- `String.prototype.trim`. -/
def jsTrimStr (s : String) : String := String.mk (jsTrim s.data)

/-! ### The field-cleaning pipelines

content.js applies a cleaning chain to each extracted field.  Subject
(lines 26-30) and sender name (lines 47-51) use the same four steps;
the body (lines 71-76) inserts a fifth step, `.replace(/\s+/g, ' ')`,
before the final trim. -/

/-- The subject-cleaning chain of `getSubject` (content.js 26-30):
remove control characters, remove zero-width characters, replace
non-breaking spaces, trim. -/
def cleanSubjectChars (l : List Char) : List Char :=
  jsTrim (((l.filter (fun c => !isControlChar c)).filter
    (fun c => !isZeroWidth c)).map replaceNbsp)

/-- `getSubject`'s cleaning chain on strings. -/
def cleanSubjectText (s : String) : String :=
  String.mk (cleanSubjectChars s.data)

/-- The sender-name-cleaning chain of `getSender` (content.js 47-51):
remove control characters, remove zero-width characters, replace
non-breaking spaces, trim. -/
def cleanSenderNameChars (l : List Char) : List Char :=
  jsTrim (((l.filter (fun c => !isControlChar c)).filter
    (fun c => !isZeroWidth c)).map replaceNbsp)

/-- `getSender`'s name-cleaning chain on strings. -/
def cleanSenderNameText (s : String) : String :=
  String.mk (cleanSenderNameChars s.data)

/-- The body-cleaning chain of `getBody` (content.js 71-76): remove
control characters, remove zero-width characters, replace non-breaking
spaces, collapse whitespace runs, trim. -/
def cleanBodyChars (l : List Char) : List Char :=
  jsTrim (collapseWs (((l.filter (fun c => !isControlChar c)).filter
    (fun c => !isZeroWidth c)).map replaceNbsp))

/-- `getBody`'s cleaning chain on strings. -/
def cleanBodyText (s : String) : String :=
  String.mk (cleanBodyChars s.data)

/-! ### DOM snapshot model

A `Dom` records what each of the CSS selectors used by the extractor
currently resolves to.  `querySelector` returning `null` is `none`;
`querySelectorAll("div.a3s")` is the list of matches in document
order.  Element attributes that may be absent are `Option String`
(`getAttribute` returning `null` is `none`). -/

/-- A DOM element as seen by the extractor: its `textContent`, its
`innerText`, and the three attributes the script reads. -/
structure Elem where
  textContent : String := ""
  innerText : String := ""
  nameAttr : Option String := none
  emailAttr : Option String := none
  hovercardAttr : Option String := none
deriving DecidableEq, Repr

/-- Snapshot of the selector results the content script queries, plus
the URL query parameters used for message identity. -/
structure Dom where
  hP : Option Elem := none
  ariaHeading : Option Elem := none
  gD : Option Elem := none
  a3s : List Elem := []
  urlTh : Option String := none
  urlMessageId : Option String := none
deriving DecidableEq, Repr

/-- The `text` helper (content.js line 2):
`el && el.textContent ? el.textContent.trim() : ""`. -/
def textOf : Option Elem → String
  | none => ""
  | some e => if e.textContent = "" then "" else jsTrimStr e.textContent

/-- `getSubject` (content.js 20-37): `document.querySelector("h2.hP")`
or-else the ARIA heading — the first selector that resolves to an
element wins — then the subject-cleaning chain. -/
def getSubject (d : Dom) : String :=
  cleanSubjectText (textOf (d.hP.orElse (fun _ => d.ariaHeading)))

/-- The sender record returned by `getSender`. -/
structure Sender where
  name : String := ""
  email : String := ""
deriving DecidableEq, Repr

/-- `getSender` (content.js 40-58).  The name is
`el?.getAttribute("name") || text(el)` (an absent or empty attribute
falls through to the text) run through the sender-name-cleaning chain;
the email is `el?.getAttribute("email") ||
el?.getAttribute("data-hovercard-id") || ""`. -/
def getSender (d : Dom) : Sender :=
  match d.gD with
  | none => { name := cleanSenderNameText (textOf none), email := "" }
  | some e =>
    let rawName :=
      match e.nameAttr with
      | some a => if a = "" then textOf (some e) else a
      | none => textOf (some e)
    let email :=
      match e.emailAttr with
      | some a =>
        if a = "" then
          (match e.hovercardAttr with
           | some h => h
           | none => "")
        else a
      | none =>
        match e.hovercardAttr with
        | some h => h
        | none => ""
    { name := cleanSenderNameText rawName, email := email }

/-- `getBody` (content.js 61-83): take the LAST `div.a3s` match, read
`innerText.trim()`, and run the body-cleaning chain; no match yields
the empty string. -/
def getBody (d : Dom) : String :=
  match d.a3s.getLast? with
  | none => ""
  | some last => cleanBodyText (jsTrimStr last.innerText)

/-- `isMessageOpen` (content.js 86-88): an email view is open iff
`h2.hP` or some `div.a3s` resolves. -/
def isMessageOpen (d : Dom) : Bool :=
  d.hP.isSome || !d.a3s.isEmpty

/-- The `ExtractedMessage` value `{ subject, sender, body }` built by
`autoReadCurrentEmail` and the `EXTRACT_EMAIL` handler. -/
structure ExtractedMessage where
  subject : String := ""
  sender : Sender := {}
  body : String := ""
deriving DecidableEq, Repr

/-- One extraction pass: the three field readers on a DOM snapshot. -/
def extract (d : Dom) : ExtractedMessage :=
  { subject := getSubject d, sender := getSender d, body := getBody d }

/-! ### Widget state

The icon's visual state is carried by CSS classes (`active`,
`loading`) plus the global flags the script keeps on `window`
(`speechData`, `currentAudio`, `isPlaying`, `isPaused`).  The glyph
currently rendered in the icon and the visibility of the download
button are modelled explicitly. -/

/-- The glyph rendered inside the icon. -/
inductive Glyph where
  | speaker
  | play
  | pause
deriving DecidableEq, Repr

/-- The widget-relevant mutable state of the page. `speechData` is
`some url` exactly when `window.speechData && window.speechData.audioFile`
holds (the script only ever stores speech objects that carry an
`audioFile`); `hasAudio` is `window.currentAudio !== null`. -/
structure Widget where
  active : Bool := false
  loading : Bool := false
  speechData : Option String := none
  hasAudio : Bool := false
  isPlaying : Bool := false
  isPaused : Bool := false
  glyph : Glyph := Glyph.speaker
  downloadVisible : Bool := false
deriving DecidableEq, Repr

/-- Observable actions the click handlers can perform.
`startSummarize` is the invocation of `generateSummary` (the outbound
HTTP episode); the others drive the audio element. -/
inductive Act where
  | startSummarize
  | pauseAudio
  | resumeAudio
  | playAudio
  | newAudio
deriving DecidableEq, Repr

/-- Does an action list contain the start of a summarize episode? -/
def hasStartSummarize (acts : List Act) : Bool :=
  acts.any (fun a => a == Act.startSummarize)

/-- `handlePlayPause` (content.js 283-335): bail out when no speech
data is cached; otherwise pause, resume, or (re)start the audio
element depending on the playing/paused flags. It never starts a
summarize episode. -/
def handlePlayPause (w : Widget) : Widget × List Act :=
  if w.speechData.isNone then (w, [])
  else if w.hasAudio && w.isPlaying then
    ({ w with isPlaying := false, isPaused := true,
              glyph := Glyph.play, downloadVisible := true }, [Act.pauseAudio])
  else if w.hasAudio && w.isPaused then
    ({ w with isPlaying := true, isPaused := false,
              glyph := Glyph.pause, downloadVisible := true }, [Act.resumeAudio])
  else if w.hasAudio then
    ({ w with isPlaying := true, isPaused := false,
              glyph := Glyph.pause, downloadVisible := true }, [Act.playAudio])
  else
    ({ w with hasAudio := true, isPlaying := true, isPaused := false,
              glyph := Glyph.pause, downloadVisible := true }, [Act.newAudio])

/-- Outcome of one `autoReadCurrentEmail` run (content.js 615-654). -/
inductive AutoReadOutcome where
  | noEmailOpen
  | audioCached
  | extractionEmpty
  | summarizeInvoked (m : ExtractedMessage)
deriving DecidableEq, Repr

/-- `autoReadCurrentEmail` (content.js 615-654): return early when no
message is open or audio is already cached; otherwise set the icon to
active+loading, extract, and either abort (all three fields empty,
classes removed) or invoke `generateSummary` with the extraction. -/
def autoReadCurrentEmail (d : Dom) (w : Widget) :
    Widget × AutoReadOutcome :=
  if !isMessageOpen d then (w, AutoReadOutcome.noEmailOpen)
  else if w.speechData.isSome then (w, AutoReadOutcome.audioCached)
  else
    let w1 := { w with active := true, loading := true }
    let subject := getSubject d
    let sender := getSender d
    let body := getBody d
    if subject = "" && sender.name = "" && body = "" then
      ({ w1 with active := false, loading := false },
       AutoReadOutcome.extractionEmpty)
    else
      (w1, AutoReadOutcome.summarizeInvoked
        { subject := subject, sender := sender, body := body })

/-- The actions a given `autoReadCurrentEmail` outcome performs. -/
def outcomeActs : AutoReadOutcome → List Act
  | AutoReadOutcome.summarizeInvoked _ => [Act.startSummarize]
  | _ => []

/-- `handleIconClick` (content.js 248-280): an `active` icon routes to
`handlePlayPause`; a `loading` icon ignores the click; otherwise the
click marks the icon active+loading, clears `window.speechData`, and
runs `autoReadCurrentEmail`. -/
def handleIconClick (d : Dom) (w : Widget) : Widget × List Act :=
  if w.active then handlePlayPause w
  else if w.loading then (w, [])
  else
    let w1 := { w with active := true, loading := true, speechData := none }
    let r := autoReadCurrentEmail d w1
    (r.1, outcomeActs r.2)

/-! ### Summary client: health probe (content.js 671-732)

The probe is a `fetch` of `/health`; a non-OK response or a non-network
rejection falls back to a synchronous `XMLHttpRequest` probe, while a
network error (`TypeError` with message `Failed to fetch`) aborts the
whole episode at once. -/

/-- How the `fetch` health probe resolves. -/
inductive FetchHealth where
  | ok (status : Nat)
  | networkError
  | otherError
deriving DecidableEq, Repr

/-- How the synchronous `XMLHttpRequest` fallback probe resolves. -/
inductive XhrHealth where
  | status (n : Nat)
  | throws
deriving DecidableEq, Repr

/-- Result of the probe phase of `generateSummary`. -/
inductive ProbeResult where
  | proceed
  | failFastNetwork
  | failFastBoth
deriving DecidableEq, Repr

/-- Is an HTTP status in the `response.ok` range? -/
def isOkStatus (s : Nat) : Bool := 200 ≤ s && s < 300

/-- The `XMLHttpRequest` fallback probe (content.js 710-727):
`if (xhr.status === 200)` proceeds, anything else (including the send
itself throwing) fails the episode. -/
def xhrFallback : XhrHealth → ProbeResult
  | XhrHealth.status n =>
    if n = 200 then ProbeResult.proceed else ProbeResult.failFastBoth
  | XhrHealth.throws => ProbeResult.failFastBoth

/-- The probe phase of `generateSummary` (content.js 671-732):
`response.ok` proceeds; a network error (`TypeError` whose message
contains `Failed to fetch`) throws without a fallback; any other
failure retries the probe through the synchronous `XMLHttpRequest`
fallback. -/
def healthProbe (f : FetchHealth) (x : XhrHealth) : ProbeResult :=
  match f with
  | FetchHealth.ok s =>
    if isOkStatus s then ProbeResult.proceed else xhrFallback x
  | FetchHealth.networkError => ProbeResult.failFastNetwork
  | FetchHealth.otherError => xhrFallback x

/-! ### Summary client: retry loop (content.js 734-783)

`retries` starts at 3; a resolved 2xx response breaks the loop, any
other outcome decrements `retries` and, when attempts remain, sleeps
`Math.pow(2, 3 - retries) * 1000` milliseconds (with `retries` already
decremented) before the next attempt; when none remain, the loop
rethrows the last error. -/

/-- How one summarize `fetch` attempt resolves: a response with some
status, or a rejected promise carrying an error message. -/
inductive AttemptOutcome where
  | ok (status : Nat)
  | fail (err : String)
deriving DecidableEq, Repr

/-- `response.ok` for the attempt: resolved with a 2xx status. -/
def attemptSucceeds : AttemptOutcome → Bool
  | AttemptOutcome.ok s => isOkStatus s
  | AttemptOutcome.fail _ => false

/-- The error thrown by a failed attempt: the fetch rejection message,
or the synthetic `HTTP error` for a resolved non-2xx response. -/
def attemptError : AttemptOutcome → String
  | AttemptOutcome.ok s => "HTTP error! status: " ++ toString s
  | AttemptOutcome.fail e => e

/-- The status delivered by a successful attempt. -/
def attemptStatus : AttemptOutcome → Nat
  | AttemptOutcome.ok s => s
  | AttemptOutcome.fail _ => 0

deriving instance DecidableEq for Except

/-- The observable trace of the retry loop: how many attempts ran, the
sleeps (in milliseconds) between them, and the final result. -/
structure RetryTrace where
  attemptsMade : Nat
  waits : List Nat
  result : Except String Nat
deriving DecidableEq, Repr

/-- The retry loop body (content.js 739-779). `outcomes i` is how
attempt number `i` (1-based) resolves; the second argument is the
current value of `retries`. On a failed attempt `retries` is
decremented first, so the sleep is `2 ^ (3 - retries) * 1000` with the
DECREMENTED value — 2000 ms after the first failure and 4000 ms after
the second. -/
def retryLoopAux (outcomes : Nat → AttemptOutcome) :
    Nat → Nat → RetryTrace
  | _, 0 => ⟨0, [], Except.error "loop not entered"⟩
  | i, r + 1 =>
    let o := outcomes i
    if attemptSucceeds o then ⟨1, [], Except.ok (attemptStatus o)⟩
    else if r > 0 then
      let delay := 2 ^ (3 - r) * 1000
      let t := retryLoopAux outcomes (i + 1) r
      ⟨t.attemptsMade + 1, delay :: t.waits, t.result⟩
    else ⟨1, [], Except.error (attemptError o)⟩

/-- The retry loop of `generateSummary`, entered with `retries = 3`
and attempt number 1. -/
def retryLoop (outcomes : Nat → AttemptOutcome) : RetryTrace :=
  retryLoopAux outcomes 1 3

/-- How many `POST /summarize` attempts a `generateSummary` episode
makes, given how the probes and the summarize attempts would resolve:
zero unless the probe phase proceeds, else what the retry loop does. -/
def generateSummaryAttempts (f : FetchHealth) (x : XhrHealth)
    (outcomes : Nat → AttemptOutcome) : Nat :=
  match healthProbe f x with
  | ProbeResult.proceed => (retryLoop outcomes).attemptsMade
  | _ => 0

/-! ### Summary client: response processing (content.js 787-826) -/

/-- The parsed JSON body of a summarize response: the success flag,
`result.speech && result.speech.audioFile` (collapsed to the audio URL
when both are present), and the error string. -/
structure SummarizeResult where
  success : Bool
  speechAudioFile : Option String := none
  error : String := ""
deriving DecidableEq, Repr

/-- Processing of the summarize response (content.js 787-826): on
success drop the loading class and, when an audio URL is present,
cache it and render the play glyph with the download button; on
failure drop both classes and render the speaker glyph.  The handler
consults nothing but the parsed result — in particular no message
identity. -/
def processSummaryResponse (r : SummarizeResult) (w : Widget) : Widget :=
  if r.success then
    let w1 := { w with loading := false }
    match r.speechAudioFile with
    | some url =>
      { w1 with speechData := some url, glyph := Glyph.play,
                downloadVisible := true }
    | none => w1
  else
    { w with loading := false, active := false, glyph := Glyph.speaker,
             downloadVisible := false }

/-! ### Message-change detection (content.js 984-1081) -/

/-- `getCurrentEmailId` (content.js 991-1016): `no-email` when no
message is open; else the `th` or `message_id` URL parameter when one
is non-empty; else `subject-sender` built from the heading and sender
elements when both resolve; else `no-email`. -/
def getCurrentEmailId (d : Dom) : String :=
  if !isMessageOpen d then "no-email"
  else
    let fromTh := match d.urlTh with | some v => v | none => ""
    let messageId :=
      if fromTh ≠ "" then fromTh
      else match d.urlMessageId with | some v => v | none => ""
    if messageId ≠ "" then messageId
    else
      match d.hP.orElse (fun _ => d.ariaHeading), d.gD with
      | some se, some ge => textOf (some se) ++ "-" ++ textOf (some ge)
      | _, _ => "no-email"

/-- `resetWidgetState` (content.js 900-927): remove the icon classes,
release the audio element, clear the play/pause flags, zero the
progress ring, render the speaker glyph, hide the download button.
`window.speechData` is NOT cleared here. -/
def resetWidgetState (w : Widget) : Widget :=
  { w with active := false, loading := false, hasAudio := false,
           isPlaying := false, isPaused := false,
           glyph := Glyph.speaker, downloadVisible := false }

/-- The state read and written by `checkForEmailChange`: the stored
identity sample and the widget state. -/
structure ChangeState where
  currentEmailId : String
  widget : Widget
deriving DecidableEq, Repr

/-- `checkForEmailChange` (content.js 1027-1046): recompute the
identity; when it differs from the stored sample, store it and reset
the widget (and schedule a re-summarize when the new identity is a
real message); equal samples do nothing.  The boolean reports whether
the transition fired.  Both the 1-second interval and the mutation
observer invoke exactly this function. -/
def checkForEmailChange (d : Dom) (st : ChangeState) :
    ChangeState × Bool :=
  let newId := getCurrentEmailId d
  if newId ≠ st.currentEmailId then
    ({ currentEmailId := newId, widget := resetWidgetState st.widget },
     true)
  else (st, false)

/-! ### Concrete fixtures used by the theorems below -/

/-- A fresh widget: no classes, no cached audio. -/
def initialWidget : Widget := {}

/-- A widget in the middle of a summarize episode: the icon carries
the `active` and `loading` classes and `window.speechData` is null. -/
def requestingWidget : Widget := { active := true, loading := true }

/-- A DOM snapshot with no resolving selector at all. -/
def emptyDom : Dom := {}

/-- A readable message: subject heading, sender element with name and
email attributes, one body node. -/
def richDom : Dom :=
  { hP := some { textContent := "Invoice Due" },
    gD := some { textContent := "Acme Billing",
                 nameAttr := some "Acme Billing",
                 emailAttr := some "billing@acme.com" },
    a3s := [{ innerText := "Please pay $500 by Friday." }] }

/-- A DOM where the first subject candidate resolves to an element
whose text trims to empty while the second candidate has real text. -/
def emptyFirstSubjectDom : Dom :=
  { hP := some { textContent := " " },
    ariaHeading := some { textContent := "Hello" } }

/-- A DOM with two `div.a3s` matches. -/
def twoBodyDom : Dom :=
  { a3s := [{ innerText := "first body" }, { innerText := "second body" }] }

/-- A summarize-attempt script: attempts 1 and 2 reject, attempt 3
resolves with HTTP 200. -/
def twoFailsThenOk : Nat → AttemptOutcome :=
  fun i => if i < 3 then AttemptOutcome.fail "Failed to fetch"
           else AttemptOutcome.ok 200

/-- A summarize-attempt script where every attempt rejects, each with
a distinct error message. -/
def allAttemptsFail : Nat → AttemptOutcome :=
  fun i => AttemptOutcome.fail ("error in attempt " ++ toString i)

/-- A summarize-attempt script where the first attempt already
succeeds. -/
def firstAttemptOk : Nat → AttemptOutcome :=
  fun _ => AttemptOutcome.ok 200

/-- A successful backend response carrying an audio URL. -/
def staleResponse : SummarizeResult :=
  { success := true, speechAudioFile := some "http://x/a.wav" }

/-! ### Helper lemmas -/

/-- `handlePlayPause` performs only audio actions, never the start of
a summarize episode. -/
theorem handlePlayPause_no_request (w : Widget) :
    hasStartSummarize (handlePlayPause w).2 = false := by
  unfold handlePlayPause
  split_ifs <;> rfl

/-- The retry loop always makes at least one attempt. -/
theorem retryLoop_attempts_pos (o : Nat → AttemptOutcome) :
    1 ≤ (retryLoop o).attemptsMade := by
  unfold retryLoop retryLoopAux
  by_cases h : attemptSucceeds (o 1) = true
  · simp [h]
  · simp [h]

/-- The last element of a list that ends in `e` is `e`. -/
theorem getLast?_append_singleton (l : List Elem) (e : Elem) :
    (l ++ [e]).getLast? = some e := by
  induction l with
  | nil => rfl
  | cons a t ih =>
    rw [List.cons_append, List.getLast?_cons, ih]
    rfl

/-! ### Claim theorems -/

/-- C1: in the summarize retry loop, two failed attempts followed by a
success give exactly three attempts, the loop stops on the first
success, and when all three attempts fail the last error is surfaced —
but the waits between attempts are 2000 ms and 4000 ms, not the
1000 ms and 2000 ms the claim (and the code's own backoff comment)
state: the delay is computed as `2 ^ (3 - retries) * 1000` AFTER
`retries` is decremented. -/
theorem retry_trace_two_failures_then_success :
    retryLoop twoFailsThenOk =
      ⟨3, [2000, 4000], Except.ok 200⟩
    ∧ (retryLoop twoFailsThenOk).waits ≠ [1000, 2000]
    ∧ retryLoop firstAttemptOk = ⟨1, [], Except.ok 200⟩
    ∧ retryLoop allAttemptsFail =
      ⟨3, [2000, 4000], Except.error (attemptError (allAttemptsFail 3))⟩ := by
  refine ⟨rfl, by decide, rfl, rfl⟩

/-- C2 counterexample: the response handler has no stale-response
guard.  With a request started under identity `msg-A` and the current
identity now `msg-B`, processing the (stale) successful response still
changes the widget state: the cached speech data and glyph are
updated. -/
theorem stale_response_changes_widget_state :
    ("msg-A" : String) ≠ "msg-B"
    ∧ processSummaryResponse staleResponse requestingWidget ≠
      requestingWidget := by
  refine ⟨by decide, by decide⟩

/-- C2 amended: the summarize response handler consults no message
identity at all — whatever identities held at request start and at
completion, a successful response with an audio URL always installs
that URL as the cached speech data (and so alters the widget state). -/
theorem process_response_ignores_identity
    (idStart idNow : String) (r : SummarizeResult) (w : Widget)
    (u : String) (hid : idStart ≠ idNow) (hs : r.success = true)
    (ha : r.speechAudioFile = some u) :
    (processSummaryResponse r w).speechData = some u := by
  simp [processSummaryResponse, hs, ha]

/-- Witness for C2 amended at identities `msg-A` and `msg-B`, the
stale successful response, and the requesting widget. -/
theorem process_response_ignores_identity_witness :
    (processSummaryResponse staleResponse requestingWidget).speechData =
      some "http://x/a.wav" :=
  process_response_ignores_identity "msg-A" "msg-B" staleResponse
    requestingWidget "http://x/a.wav" (by decide) rfl rfl

/-- C3: a click received while the icon carries the `loading` class
(the Requesting episode) never starts a new summarize episode: the
`active` route goes to `handlePlayPause` (audio actions only) and the
`loading` route ignores the click outright. -/
theorem click_while_loading_starts_no_request (d : Dom) (w : Widget)
    (h : w.loading = true) :
    hasStartSummarize (handleIconClick d w).2 = false := by
  unfold handleIconClick
  by_cases ha : w.active = true
  · simp only [ha, if_true]
    exact handlePlayPause_no_request w
  · simp only [ha, if_false, Bool.false_eq_true, h, if_true]
    rfl

/-- Witness for C3: a click on the requesting widget over an empty
DOM starts nothing. -/
theorem click_while_loading_starts_no_request_witness :
    hasStartSummarize (handleIconClick emptyDom requestingWidget).2 = false
    ∧ requestingWidget.loading = true :=
  ⟨click_while_loading_starts_no_request emptyDom requestingWidget rfl, rfl⟩

/-- C4: once a message is open and no audio is cached (the conditions
under which extraction runs at all), the pipeline ends in the
extraction-empty outcome exactly when subject, sender name and body
are all empty, and invokes `generateSummary` on the extraction exactly
when they are not — the all-empty test is the sole gate. -/
theorem extraction_empty_sole_gate (d : Dom) (w : Widget)
    (hopen : isMessageOpen d = true) (hcache : w.speechData = none) :
    ((autoReadCurrentEmail d w).2 = AutoReadOutcome.extractionEmpty ↔
      (getSubject d = "" ∧ (getSender d).name = "" ∧ getBody d = ""))
    ∧ ((autoReadCurrentEmail d w).2 =
        AutoReadOutcome.summarizeInvoked (extract d) ↔
      ¬(getSubject d = "" ∧ (getSender d).name = "" ∧ getBody d = "")) := by
  unfold autoReadCurrentEmail
  by_cases hall :
      getSubject d = "" ∧ (getSender d).name = "" ∧ getBody d = ""
  · obtain ⟨h1, h2, h3⟩ := hall
    simp [hopen, hcache, h1, h2, h3]
  · simp only [hopen, Bool.not_true, Bool.false_eq_true, if_false,
      hcache, Option.isSome_none, if_true]
    rw [if_neg]
    · simp [extract, hall]
    · simp only [Bool.and_eq_true, decide_eq_true_eq]
      exact fun hc => hall ⟨hc.1.1, hc.1.2, hc.2⟩

/-- Witness for C4 at the readable fixture DOM and a fresh widget. -/
theorem extraction_empty_sole_gate_witness :
    ((autoReadCurrentEmail richDom initialWidget).2 =
        AutoReadOutcome.extractionEmpty ↔
      (getSubject richDom = "" ∧ (getSender richDom).name = ""
        ∧ getBody richDom = ""))
    ∧ ((autoReadCurrentEmail richDom initialWidget).2 =
        AutoReadOutcome.summarizeInvoked (extract richDom) ↔
      ¬(getSubject richDom = "" ∧ (getSender richDom).name = ""
        ∧ getBody richDom = "")) :=
  extraction_empty_sole_gate richDom initialWidget rfl rfl

/-- C5 counterexample: normalization is NOT one shared function — on
the input with a double space, the subject chain keeps both spaces
while the body chain collapses them, because only the body chain has
the whitespace-run replace. -/
theorem normalization_differs_between_subject_and_body :
    cleanSubjectText "a  b" ≠ cleanBodyText "a  b" := by decide

/-- C5 amended: subject and sender name share one normalization
(strip control characters, strip zero-width characters, non-breaking
space to space, trim); the body chain additionally collapses
whitespace runs; the subject chain leaves interior runs intact. -/
theorem normalization_subject_sender_same_body_collapses :
    (∀ s : String, cleanSubjectText s = cleanSenderNameText s)
    ∧ cleanSubjectText "a  b" = "a  b"
    ∧ cleanBodyText "a  b" = "a b" :=
  ⟨fun _ => rfl, rfl, rfl⟩

/-- C6 counterexample: a failed health probe does not always fail
fast — when the `fetch` probe resolves with status 500 the code tries
a synchronous `XMLHttpRequest` probe, and when that returns 200 the
`POST /summarize` call IS issued (one attempt here). -/
theorem failed_probe_still_posts_summarize :
    isOkStatus 500 = false
    ∧ generateSummaryAttempts (FetchHealth.ok 500) (XhrHealth.status 200)
        firstAttemptOk = 1 := by
  refine ⟨rfl, rfl⟩

/-- C6 amended: only a NETWORK-error probe fails fast unconditionally;
a probe failing any other way (non-2xx status or non-network
rejection) is retried through the synchronous `XMLHttpRequest`
fallback, and `POST /summarize` is issued exactly when some probe
succeeded: never when both probes fail, and at least once when the
fallback returns status 200 after either kind of non-network probe
failure. -/
theorem health_probe_fallback_policy :
    (∀ (x : XhrHealth) (o : Nat → AttemptOutcome),
      generateSummaryAttempts FetchHealth.networkError x o = 0)
    ∧ (∀ (s : Nat) (x : XhrHealth) (o : Nat → AttemptOutcome),
      isOkStatus s = false → x ≠ XhrHealth.status 200 →
      generateSummaryAttempts (FetchHealth.ok s) x o = 0)
    ∧ (∀ (x : XhrHealth) (o : Nat → AttemptOutcome),
      x ≠ XhrHealth.status 200 →
      generateSummaryAttempts FetchHealth.otherError x o = 0)
    ∧ (∀ (s : Nat) (o : Nat → AttemptOutcome), isOkStatus s = false →
      1 ≤ generateSummaryAttempts (FetchHealth.ok s) (XhrHealth.status 200) o)
    ∧ (∀ o : Nat → AttemptOutcome,
      1 ≤ generateSummaryAttempts FetchHealth.otherError
        (XhrHealth.status 200) o) := by
  have hfb : ∀ x : XhrHealth, x ≠ XhrHealth.status 200 →
      xhrFallback x = ProbeResult.failFastBoth := by
    intro x hx
    cases x with
    | status n =>
      simp only [xhrFallback]
      rw [if_neg (fun hn => hx (by rw [hn]))]
    | throws => rfl
  have hok : ∀ (s : Nat) (x : XhrHealth), isOkStatus s = false →
      healthProbe (FetchHealth.ok s) x = xhrFallback x := by
    intro s x hs
    simp [healthProbe, hs]
  refine ⟨fun x o => rfl, fun s x o hs hx => ?_, fun x o hx => ?_,
    fun s o hs => ?_, fun o => ?_⟩
  · simp [generateSummaryAttempts, hok s x hs, hfb x hx]
  · simp [generateSummaryAttempts, healthProbe, hfb x hx]
  · have hpr : healthProbe (FetchHealth.ok s) (XhrHealth.status 200) =
        ProbeResult.proceed := by
      rw [hok s (XhrHealth.status 200) hs]
      rfl
    simp only [generateSummaryAttempts, hpr]
    exact retryLoop_attempts_pos o
  · have hpr2 : healthProbe FetchHealth.otherError (XhrHealth.status 200) =
        ProbeResult.proceed := rfl
    simp only [generateSummaryAttempts, hpr2]
    exact retryLoop_attempts_pos o


/-- Witness for C6 amended: network error fails fast; 503 plus a
throwing fallback issues no call; a non-network rejection plus a
throwing fallback issues no call; 503 plus a 200 fallback issues at
least one call; a non-network rejection plus a 200 fallback issues at
least one call. -/
theorem health_probe_fallback_policy_witness :
    generateSummaryAttempts FetchHealth.networkError (XhrHealth.status 200)
      firstAttemptOk = 0
    ∧ generateSummaryAttempts (FetchHealth.ok 503) XhrHealth.throws
      firstAttemptOk = 0
    ∧ generateSummaryAttempts FetchHealth.otherError XhrHealth.throws
      firstAttemptOk = 0
    ∧ 1 ≤ generateSummaryAttempts (FetchHealth.ok 503)
      (XhrHealth.status 200) firstAttemptOk
    ∧ 1 ≤ generateSummaryAttempts FetchHealth.otherError
      (XhrHealth.status 200) firstAttemptOk :=
  ⟨health_probe_fallback_policy.1 (XhrHealth.status 200) firstAttemptOk,
   health_probe_fallback_policy.2.1 503 XhrHealth.throws firstAttemptOk
     rfl (by decide),
   health_probe_fallback_policy.2.2.1 XhrHealth.throws firstAttemptOk
     (by decide),
   health_probe_fallback_policy.2.2.2.1 503 firstAttemptOk rfl,
   health_probe_fallback_policy.2.2.2.2 firstAttemptOk⟩

/-- C7 counterexample: subject candidates are chosen by ELEMENT
presence, not by non-empty text.  Here the first candidate `h2.hP`
resolves to an element whose text trims to empty, the second candidate
has trimmed text `Hello`, and the extracted subject is the empty
string — the later non-empty candidate did not win. -/
theorem empty_first_candidate_beats_nonempty_second :
    getSubject emptyFirstSubjectDom = ""
    ∧ cleanSubjectText (textOf emptyFirstSubjectDom.ariaHeading) = "Hello"
    ∧ ("" : String) ≠ "Hello" := by
  refine ⟨rfl, rfl, by decide⟩

/-- C7 amended: the first subject candidate that resolves to ANY
element wins, whatever its text: whenever `h2.hP` resolves, the
subject is its cleaned text and the ARIA-heading candidate is never
consulted. -/
theorem subject_first_resolving_element_wins (d : Dom) (e : Elem)
    (h : d.hP = some e) :
    getSubject d = cleanSubjectText (textOf (some e)) := by
  unfold getSubject
  rw [h]
  rfl

/-- Witness for C7 amended at the fixture DOM whose first candidate
has blank text. -/
theorem subject_first_resolving_element_wins_witness :
    getSubject emptyFirstSubjectDom =
      cleanSubjectText (textOf (some { textContent := " " })) :=
  subject_first_resolving_element_wins emptyFirstSubjectDom
    { textContent := " " } rfl

/-- C8: extraction is total and never yields a missing field — when no
candidate resolves for a field, that field of the extraction is the
empty string, and the all-empty DOM yields the (valid) completely
empty message. -/
theorem extract_missing_fields_are_empty :
    (∀ d : Dom, d.hP = none → d.ariaHeading = none →
      (extract d).subject = "")
    ∧ (∀ d : Dom, d.gD = none →
      (extract d).sender.name = "" ∧ (extract d).sender.email = "")
    ∧ (∀ d : Dom, d.a3s = [] → (extract d).body = "")
    ∧ extract emptyDom =
      { subject := "", sender := { name := "", email := "" }, body := "" } := by
  refine ⟨fun d h1 h2 => ?_, fun d h => ?_, fun d h => ?_, rfl⟩
  · unfold extract getSubject
    rw [h1, h2]
    rfl
  · unfold extract getSender
    rw [h]
    exact ⟨rfl, rfl⟩
  · unfold extract getBody
    rw [h]
    rfl

/-- Witness for C8 at the empty DOM. -/
theorem extract_missing_fields_are_empty_witness :
    (extract emptyDom).subject = ""
    ∧ (extract emptyDom).sender.name = ""
    ∧ (extract emptyDom).body = "" :=
  ⟨extract_missing_fields_are_empty.1 emptyDom rfl rfl,
   (extract_missing_fields_are_empty.2.1 emptyDom rfl).1,
   extract_missing_fields_are_empty.2.2.1 emptyDom rfl⟩

/-- C9: message-change detection is idempotent — running
`checkForEmailChange` a second time against the same DOM snapshot
(same computed identity) from the state the first run produced fires
no transition and leaves the state untouched, whichever of the timer
or the mutation observer triggered either run (both call this very
function). -/
theorem checkForEmailChange_idempotent (d : Dom) (st : ChangeState) :
    checkForEmailChange d (checkForEmailChange d st).1 =
      ((checkForEmailChange d st).1, false) := by
  have key : (checkForEmailChange d st).1.currentEmailId =
      getCurrentEmailId d := by
    simp only [checkForEmailChange]
    split_ifs with h
    · rfl
    · exact (not_not.mp h).symm
  have noop : ∀ st2 : ChangeState,
      st2.currentEmailId = getCurrentEmailId d →
      checkForEmailChange d st2 = (st2, false) := by
    intro st2 h2
    simp only [checkForEmailChange]
    rw [if_neg (fun hne => hne h2.symm)]
  exact noop (checkForEmailChange d st).1 key

/-- C10: when the body selector matches several elements, the
extracted body is computed from the LAST match alone — the earlier
matches do not appear in the result at all. -/
theorem body_comes_from_last_match_only (d : Dom) (l : List Elem)
    (e : Elem) (h : d.a3s = l ++ [e]) :
    getBody d = cleanBodyText (jsTrimStr e.innerText) := by
  unfold getBody
  rw [h, getLast?_append_singleton]

/-- Witness for C10 at the two-body fixture DOM: the result is the
cleaned second body. -/
theorem body_comes_from_last_match_only_witness :
    getBody twoBodyDom = cleanBodyText (jsTrimStr "second body") :=
  body_comes_from_last_match_only twoBodyDom [{ innerText := "first body" }]
    { innerText := "second body" } rfl

end Summurfy
